import Mathlib

/-!
Verification of the ImageGenerator front end (App.tsx, the Gemini service
module, types.ts) against its natural-language specification.

The TypeScript sources are shallowly embedded: remote calls and browser
storage are modelled as explicit inputs/outputs, JavaScript string
truthiness is modelled explicitly, and `String.prototype.includes` is
embedded as an executable substring test.
-/

namespace ImageGenerator

/-- Boolean prefix test on character lists (helper for the substring test). -/
def isPrefixOfB : List Char → List Char → Bool
  | [], _ => true
  | _ :: _, [] => false
  | a :: as, b :: bs => a == b && isPrefixOfB as bs

/-- Does `needle` occur as a contiguous run inside `hay`? -/
def containsSub (needle : List Char) : List Char → Bool
  | [] => isPrefixOfB needle []
  | c :: rest => isPrefixOfB needle (c :: rest) || containsSub needle rest

/-- Embedding of JavaScript `hay.includes(needle)`. -/
def strIncludes (hay needle : String) : Bool :=
  containsSub needle.data hay.data

/-- JavaScript truthiness of a nullable string (`null` and `""` are falsy). -/
def truthyOptStr : Option String → Bool
  | none => false
  | some s => s != ""

/-- Outcome of the remote validation call, as observed by the client:
either it resolves, or it rejects with an error whose `message` we record. -/
inductive RemoteOutcome where
  | success
  | failure (message : String)
deriving DecidableEq, Repr

/-- The quota test applied to a caught error message
(geminiService: `error.message && (error.message.includes('RESOURCE_EXHAUSTED')
|| error.message.includes('"code":429'))`). -/
def isQuotaMsg (m : String) : Bool :=
  m != "" && (strIncludes m "RESOURCE_EXHAUSTED" || strIncludes m "\"code\":429")

/-- Embedding of `validateApiKey` from the Gemini service module.
The first component is the returned boolean; the second counts the remote
generation calls issued (0 when the empty-key guard fires, 1 otherwise). -/
def validateApiKey (apiKey : String) (remote : RemoteOutcome) : Bool × Nat :=
  if apiKey = "" then (false, 0)
  else
    match remote with
    | .success => (true, 1)
    | .failure m => (if isQuotaMsg m then true else false, 1)

/-- One inline-data blob of a response part. -/
structure InlineData where
  mimeType : String
  data : String
deriving DecidableEq, Repr

/-- One part of a candidate's content; `inlineData` is present only on image
parts. -/
structure Part where
  inlineData : Option InlineData
deriving DecidableEq, Repr

/-- A candidate's content; `parts` may be absent. -/
structure Content where
  parts : Option (List Part)
deriving DecidableEq, Repr

/-- One response candidate; `content` may be absent. -/
structure Candidate where
  content : Option Content
deriving DecidableEq, Repr

/-- A `generateContent` response as inspected by `editImageWithPrompt`. -/
structure GenerateResponse where
  candidates : Option (List Candidate)
deriving DecidableEq, Repr

/-- Error message thrown when no API key is configured. -/
def cfgMsg : String :=
  "Chưa cấu hình Gemini API key. Vui lòng thiết lập trong cài đặt."

/-- Error message thrown when base64 encoding fails. -/
def encMsg : String := "Không thể mã hóa ảnh sang base64."

/-- Content-policy error message thrown on a degenerate response. -/
def safetyMsg : String :=
  "Không thể tạo ảnh. Yêu cầu của bạn có thể đã vi phạm chính sách an toàn."

/-- Quota/billing error message thrown when the caught error is a
quota-exhaustion failure. -/
def quotaMsg : String :=
  "Lỗi Hạn mức (Quota Exceeded):\n" ++
  "API Key của bạn đã hết hạn mức sử dụng miễn phí. \n" ++
  "Vui lòng bật tính năng thanh toán (billing) cho dự án Google Cloud của bạn để tiếp tục.\n\n" ++
  "Truy cập: ai.google.dev/gemini-api/docs/billing để biết thêm chi tiết."

/-- Credential error message thrown when the caught error indicates an
invalid key or a permission problem. -/
def credMsg : String :=
  "API Key không hợp lệ hoặc không có quyền cần thiết. Vui lòng kiểm tra lại key trong cài đặt."

/-- Fallback message when the caught error has no message of its own. -/
def unknownMsg : String := "Đã xảy ra lỗi không xác định."

/-- Embedding of the catch block of `editImageWithPrompt`: maps the message
of a caught error to the message of the error rethrown to the caller. -/
def mapEditError (m : String) : String :=
  if m != "" && (strIncludes m "RESOURCE_EXHAUSTED" || strIncludes m "\"code\":429") then
    quotaMsg
  else if m != "" && (strIncludes m "API_KEY_INVALID" || strIncludes m "permission") then
    credMsg
  else if m != "" then m
  else unknownMsg

/-- The part-scanning loop of `editImageWithPrompt`: the data URL built from
the first part carrying inline image data, or `none`. -/
def firstInlineUrl : List Part → Option String
  | [] => none
  | p :: rest =>
    match p.inlineData with
    | some d => some ("data:" ++ d.mimeType ++ ";base64," ++ d.data)
    | none => firstInlineUrl rest

/-- The body of the `try` block of `editImageWithPrompt`, applied to a
resolved response: the degenerate-response guard followed by the part scan.
An `Except.error` is a thrown error (still subject to the catch block). -/
def editCore (resp : GenerateResponse) : Except String (Option String) :=
  match resp.candidates with
  | none => .error safetyMsg
  | some [] => .error safetyMsg
  | some (c0 :: _) =>
    match c0.content with
    | none => .error safetyMsg
    | some content =>
      match content.parts with
      | none => .error safetyMsg
      | some parts => .ok (firstInlineUrl parts)

/-- Embedding of `editImageWithPrompt` from the Gemini service module.
`apiKey` is the stored key (`getApiKey()`), `base64Image` the encoding
result (`fileToBase64`), and `remote` the outcome of the `generateContent`
call. `Except.error m` models a rejection with message `m`; `Except.ok`
carries the resolved value (a data URL or `null`). Errors thrown inside the
`try` block — including the content-policy throw — pass through the catch
block's message mapping; the key and encoding guards sit outside it. -/
def editImageWithPrompt (apiKey : Option String) (base64Image : Option String)
    (remote : Except String GenerateResponse) : Except String (Option String) :=
  if !truthyOptStr apiKey then .error cfgMsg
  else if !truthyOptStr base64Image then .error encMsg
  else
    match remote with
    | .error m => .error (mapEditError m)
    | .ok resp =>
      match editCore resp with
      | .error m => .error (mapEditError m)
      | .ok r => .ok r

/-- An uploaded file as far as the orchestrator inspects it: its `name`
(used for record ids, error messages and removal) and its MIME `type`. -/
structure UploadedFile where
  name : String
  type : String
deriving DecidableEq, Repr

/-- A generated image record (types.ts `GeneratedImage`). -/
structure GeneratedImage where
  id : String
  url : String
  prompt : String
  originalFileName : String
deriving DecidableEq, Repr

/-- Embedding of `removeFile` (App.tsx): keep the files whose name differs
from the given name. -/
def removeFile (fileName : String) (files : List UploadedFile) : List UploadedFile :=
  files.filter (fun f => f.name != fileName)

/-- Quote a string for the JSON serialization model. -/
def jsonStr (s : String) : String := "\"" ++ s ++ "\""

/-- Serialization of one record, modelling its `JSON.stringify` image. -/
def stringifyImage (img : GeneratedImage) : String :=
  "\x7b\"id\":" ++ jsonStr img.id ++ ",\"url\":" ++ jsonStr img.url ++
  ",\"prompt\":" ++ jsonStr img.prompt ++
  ",\"originalFileName\":" ++ jsonStr img.originalFileName ++ "\x7d"

/-- Serialization of the gallery, modelling `JSON.stringify(generatedImages)`. -/
def stringifyGallery (imgs : List GeneratedImage) : String :=
  "[" ++ String.intercalate "," (imgs.map stringifyImage) ++ "]"

/-- The slice of App component state the verified operations touch, plus the
`generatedImages` entry of `localStorage` (`storage`). -/
structure AppState where
  hasApiKey : Bool
  uploadedFiles : List UploadedFile
  prompt : String
  error : Option String
  isSettingsOpen : Bool
  isLoading : Bool
  generatedImages : List GeneratedImage
  selectedImage : Option GeneratedImage
  storage : Option String
deriving DecidableEq, Repr

/-- Embedding of `String.prototype.trim`: strips leading and trailing
whitespace. -/
def trimStr (s : String) : String :=
  ⟨((s.data.dropWhile Char.isWhitespace).reverse.dropWhile Char.isWhitespace).reverse⟩

/-- Precondition error message: no API key configured. -/
def needKeyMsg : String :=
  "Vui lòng thiết lập Gemini API Key trong phần cài đặt trước khi tạo ảnh."

/-- Precondition error message: no uploaded files. -/
def needFilesMsg : String := "Vui lòng tải lên ít nhất một ảnh để chỉnh sửa."

/-- Precondition error message: empty (all-whitespace) prompt. -/
def needPromptMsg : String := "Vui lòng nhập lời nhắc chỉnh sửa ảnh."

/-- Per-file failure line when the edit resolves without image data
(`Không thể tạo ảnh chỉnh sửa cho ${file.name}.`). -/
def noImageLine (name : String) : String :=
  "Không thể tạo ảnh chỉnh sửa cho " ++ name ++ "."

/-- Per-file failure line when the edit rejects
(`Lỗi khi xử lý ảnh ${file.name}: ${e.message}`). -/
def procErrLine (name msg : String) : String :=
  "Lỗi khi xử lý ảnh " ++ name ++ ": " ++ msg

/-- Embedding of the error accumulation
`setError((prev) => prev ? prev + '\n' + msg : msg)` for one message. -/
def appendErrLine (e : Option String) (msg : String) : String :=
  match e with
  | none => msg
  | some p => if p = "" then msg else p ++ "\n" ++ msg

/-- The credential test App.tsx applies to a caught per-file error message
(`e.message && (e.message.includes('API Key') || e.message.includes('API key'))`). -/
def isCredMsg (m : String) : Bool :=
  m != "" && (strIncludes m "API Key" || strIncludes m "API key")

/-- The record built on a successful edit; `now` stands for `Date.now()`. -/
def mkImage (f : UploadedFile) (url promptText : String) (now : Nat) : GeneratedImage :=
  { id := f.name ++ "-" ++ toString now
    url := url
    prompt := promptText
    originalFileName := f.name }

/-- The mutable state threaded through the generation loop: the in-batch
accumulator (`newGeneratedImagesThisRun`), the aggregated error, the two
key-related flags, and the trace of files the edit client was called on. -/
structure BatchState where
  newImages : List GeneratedImage
  error : Option String
  hasApiKey : Bool
  isSettingsOpen : Bool
  calls : List String
deriving DecidableEq, Repr

/-- One iteration of the generation loop for one file. `edit` is the edit
client (`editImageWithPrompt` applied to the file): `Except.error m` models
a rejection with message `m`, `Except.ok` the resolved data URL or `null`.
A resolved empty string is falsy in JavaScript, so it takes the
no-image branch, as `null` does. -/
def stepFile (edit : UploadedFile → Except String (Option String))
    (promptText : String) (now : Nat) (bs : BatchState) (f : UploadedFile) : BatchState :=
  let bs := { bs with calls := bs.calls ++ [f.name] }
  match edit f with
  | .ok r =>
    if truthyOptStr r then
      { bs with newImages := bs.newImages ++ [mkImage f (r.getD "") promptText now] }
    else
      { bs with error := some (appendErrLine bs.error (noImageLine f.name)) }
  | .error m =>
    let bs := { bs with error := some (appendErrLine bs.error (procErrLine f.name m)) }
    if isCredMsg m then { bs with hasApiKey := false, isSettingsOpen := true } else bs

/-- Embedding of `handleGenerate` (App.tsx): the three precondition gates,
then the sequential per-file loop, then the single prepending gallery
update. The second component is the trace of edit-client calls issued. -/
def handleGenerate (edit : UploadedFile → Except String (Option String))
    (now : Nat) (st : AppState) : AppState × List String :=
  if !st.hasApiKey then
    ({ st with error := some needKeyMsg, isSettingsOpen := true }, [])
  else if st.uploadedFiles.length = 0 then
    ({ st with error := some needFilesMsg }, [])
  else if trimStr st.prompt = "" then
    ({ st with error := some needPromptMsg }, [])
  else
    let bs := st.uploadedFiles.foldl (stepFile edit st.prompt now)
      { newImages := [], error := none, hasApiKey := st.hasApiKey,
        isSettingsOpen := st.isSettingsOpen, calls := [] }
    ({ st with
        error := bs.error
        hasApiKey := bs.hasApiKey
        isSettingsOpen := bs.isSettingsOpen
        generatedImages := bs.newImages ++ st.generatedImages
        isLoading := false },
      bs.calls)

/-- Embedding of `handleDeleteImage` (App.tsx): guarded by the truthiness of
`selectedImage?.id`, it filters the gallery by id and clears the selection. -/
def handleDeleteImage (st : AppState) : AppState :=
  match st.selectedImage with
  | none => st
  | some img =>
    if img.id = "" then st
    else
      { st with
          generatedImages := st.generatedImages.filter (fun r => r.id != img.id)
          selectedImage := none }

/-- Embedding of the gallery persistence effect (App.tsx): writes the
serialized gallery to the `generatedImages` storage entry when the gallery
is non-empty or `localStorage.getItem('generatedImages')` is truthy. -/
def persistEffect (st : AppState) : AppState :=
  if st.generatedImages.length > 0 || truthyOptStr st.storage then
    { st with storage := some (stringifyGallery st.generatedImages) }
  else st

/-- Embedding of the gallery hydration effect (App.tsx). `parse` models
`JSON.parse` on the stored entry (`none` = a thrown parse error). The
boolean records whether the catch block ran (`console.error` + removal). -/
def hydrateGallery (parse : String → Option (List GeneratedImage))
    (st : AppState) : AppState × Bool :=
  match st.storage with
  | none => (st, false)
  | some s =>
    if s = "" then (st, false)
    else
      match parse s with
      | some imgs => ({ st with generatedImages := imgs }, false)
      | none => ({ st with storage := none }, true)

/-- The records the loop accumulates: one per successful file, in upload
order. -/
def succRecords (edit : UploadedFile → Except String (Option String))
    (promptText : String) (now : Nat) (files : List UploadedFile) : List GeneratedImage :=
  files.filterMap (fun f =>
    match edit f with
    | .ok r => if truthyOptStr r then some (mkImage f (r.getD "") promptText now) else none
    | .error _ => none)

/-- The failure lines the loop accumulates: one per failed file, in upload
order. -/
def failLines (edit : UploadedFile → Except String (Option String))
    (files : List UploadedFile) : List String :=
  files.filterMap (fun f =>
    match edit f with
    | .ok r => if truthyOptStr r then none else some (noImageLine f.name)
    | .error m => some (procErrLine f.name m))

/-- Does some file of the batch fail with a message App.tsx classifies as a
credential problem? -/
def anyCred (edit : UploadedFile → Except String (Option String))
    (files : List UploadedFile) : Bool :=
  files.any (fun f =>
    match edit f with
    | .ok _ => false
    | .error m => isCredMsg m)

/-- Iterated error accumulation, one line at a time. -/
def appendErrLines (e : Option String) : List String → Option String
  | [] => e
  | m :: ms => appendErrLines (some (appendErrLine e m)) ms

/-- Newline join of a list of lines. -/
def joinLines : List String → String
  | [] => ""
  | [m] => m
  | m :: m2 :: ms => m ++ "\n" ++ joinLines (m2 :: ms)

/-- Fixture: an uploaded file named `a.png`. -/
def fileA : UploadedFile := ⟨"a.png", "image/png"⟩

/-- Fixture: an uploaded file named `b.png`. -/
def fileB : UploadedFile := ⟨"b.png", "image/png"⟩

/-- Fixture edit client: `a.png` succeeds, every other file rejects. -/
def editAB : UploadedFile → Except String (Option String) :=
  fun f => if f.name = "a.png" then .ok (some "u") else .error "boom"

/-- Fixture state: key present, two uploaded files, non-empty prompt. -/
def stAB : AppState :=
  ⟨true, [fileA, fileB], "make it pop", none, false, true, [], none, none⟩
/-- Fixture state: no API key. -/
def stNoKey : AppState := ⟨false, [fileA], "p", none, false, false, [], none, none⟩

/-- Fixture state: key present but no uploaded files. -/
def stNoFiles : AppState := ⟨true, [], "p", none, false, false, [], none, none⟩

/-- Fixture state: key and files present but a whitespace-only prompt. -/
def stNoPrompt : AppState := ⟨true, [fileA], "   ", none, false, false, [], none, none⟩
/-- Fixture: a remote rejection message signalling quota exhaustion. -/
def quotaRemoteMsg : String := "429 RESOURCE_EXHAUSTED: You exceeded your current quota"

/-- Fixture edit client: every file hits the quota-exhausted remote error,
routed through the real `editImageWithPrompt` error mapping. -/
def editQuota : UploadedFile → Except String (Option String) :=
  fun _ => editImageWithPrompt (some "key") (some "b64") (.error quotaRemoteMsg)

/-- Fixture state for the quota-failure batch. -/
def stQuota : AppState := ⟨true, [⟨"photo.png", "image/png"⟩], "p", none, false, false, [], none, none⟩
/-- Fixture edit client: every file succeeds with a name-derived URL. -/
def editOk : UploadedFile → Except String (Option String) :=
  fun f => .ok (some ("url-" ++ f.name))

/-- Fixture state: key present, two uploaded files, non-empty prompt,
empty gallery. -/
def stTwo : AppState := ⟨true, [fileA, fileB], "p", none, false, false, [], none, none⟩
/-- Fixture record with id `x-1`. -/
def imgX : GeneratedImage := ⟨"x-1", "urlx", "p", "x.png"⟩

/-- Fixture record with id `y-2`. -/
def imgY : GeneratedImage := ⟨"y-2", "urly", "p", "y.png"⟩

/-- Fixture state: two-record gallery, first record selected, storage in
sync with the gallery. -/
def stDel : AppState :=
  ⟨true, [], "p", none, false, false, [imgX, imgY], some imgX,
    some (stringifyGallery [imgX, imgY])⟩
/-- Fixture state: empty gallery, corrupted persisted entry. -/
def stCorrupt : AppState := ⟨true, [], "p", none, false, false, [], none, some "garbage"⟩
/-- Fixture state: the last record was just deleted, the entry still holds
the old one-record serialization. -/
def stLastGone : AppState :=
  ⟨true, [], "p", none, false, false, [], none, some (stringifyGallery [imgX])⟩

theorem append_ne_empty_left (s t : String) (h : s ≠ "") : s ++ t ≠ "" := by
  intro hc
  apply h
  have := congrArg String.data hc
  simp only [String.data_append] at this
  rcases List.append_eq_nil.mp this with ⟨h1, _⟩
  exact String.ext h1

theorem appendErrLines_some (ms : List String) :
    ∀ p : String, p ≠ "" → appendErrLines (some p) ms = some (joinLines (p :: ms)) := by
  induction ms with
  | nil => intro p _; rfl
  | cons m ms ih =>
    intro p hp
    simp only [appendErrLines, appendErrLine, if_neg hp]
    rw [ih (p ++ "\n" ++ m) (append_ne_empty_left _ _ (append_ne_empty_left p "\n" hp))]
    cases ms <;> simp [joinLines, String.append_assoc]

theorem batch_foldl_spec (edit : UploadedFile → Except String (Option String))
    (promptText : String) (now : Nat) :
    ∀ (files : List UploadedFile) (bs : BatchState),
      files.foldl (stepFile edit promptText now) bs =
        { newImages := bs.newImages ++ succRecords edit promptText now files
          error := appendErrLines bs.error (failLines edit files)
          hasApiKey := bs.hasApiKey && !anyCred edit files
          isSettingsOpen := bs.isSettingsOpen || anyCred edit files
          calls := bs.calls ++ files.map (·.name) } := by
  intro files
  induction files with
  | nil => intro bs; simp [succRecords, failLines, anyCred, appendErrLines]
  | cons f fs ih =>
    intro bs
    simp only [List.foldl_cons, ih]
    simp only [stepFile, succRecords, failLines, anyCred, List.filterMap_cons, List.any_cons,
      List.map_cons]
    cases hef : edit f with
    | ok r =>
      by_cases hr : truthyOptStr r = true
      · simp [hef, hr, succRecords, failLines, anyCred, List.append_assoc]
      · simp only [Bool.not_eq_true] at hr
        simp [hef, hr, succRecords, failLines, anyCred, appendErrLines, List.append_assoc]
    | error m =>
      by_cases hm : isCredMsg m = true
      · simp [hef, hm, succRecords, failLines, anyCred, appendErrLines, List.append_assoc]
      · simp only [Bool.not_eq_true] at hm
        simp [hef, hm, succRecords, failLines, anyCred, appendErrLines, List.append_assoc]

theorem stringifyGallery_ne_empty (g : List GeneratedImage) : stringifyGallery g ≠ "" := by
  unfold stringifyGallery
  exact append_ne_empty_left _ _ (append_ne_empty_left "[" _ (by decide))

/-- C1: `validateApiKey` returns true when the validation request succeeds
on a non-empty key, still returns true when the request fails with a
quota-exhaustion error (RESOURCE_EXHAUSTED / HTTP 429), returns false on
every other failure, and returns false on the empty key while issuing zero
remote calls. -/
theorem C1_validateApiKey_spec (key m1 m2 : String) (r : RemoteOutcome)
    (hk : key ≠ "") (hq1 : isQuotaMsg m1 = true) (hq2 : isQuotaMsg m2 = false) :
    validateApiKey "" r = (false, 0) ∧
    validateApiKey key .success = (true, 1) ∧
    validateApiKey key (.failure m1) = (true, 1) ∧
    validateApiKey key (.failure m2) = (false, 1) := by
  refine ⟨rfl, ?_, ?_, ?_⟩ <;> simp [validateApiKey, hk, hq1, hq2]

/-- Witness for C1 at concrete inputs: a quota-exhausted key is reported
valid, a plainly failing key invalid, the empty key invalid with no call. -/
theorem C1_witness :
    validateApiKey "" .success = (false, 0) ∧
    validateApiKey "k" .success = (true, 1) ∧
    validateApiKey "k" (.failure "RESOURCE_EXHAUSTED: quota") = (true, 1) ∧
    validateApiKey "k" (.failure "network down") = (false, 1) :=
  C1_validateApiKey_spec "k" "RESOURCE_EXHAUSTED: quota" "network down" .success
    (by decide) (by decide) (by decide)

theorem firstInlineUrl_of_all_none (parts : List Part)
    (h : ∀ q ∈ parts, q.inlineData = none) : firstInlineUrl parts = none := by
  induction parts with
  | nil => rfl
  | cons q qs ih =>
    have hq := h q (by simp)
    simp only [firstInlineUrl, hq]
    exact ih fun x hx => h x (by simp [hx])

theorem firstInlineUrl_of_first_image (pre suf : List Part) (p : Part) (d : InlineData)
    (hpre : ∀ q ∈ pre, q.inlineData = none) (hd : p.inlineData = some d) :
    firstInlineUrl (pre ++ p :: suf) =
      some ("data:" ++ d.mimeType ++ ";base64," ++ d.data) := by
  induction pre with
  | nil => simp [firstInlineUrl, hd]
  | cons q qs ih =>
    have hq := hpre q (by simp)
    simp only [List.cons_append, firstInlineUrl, hq]
    exact ih fun x hx => hpre x (by simp [hx])

/-- C3: on a degenerate response (no candidates, empty candidate list, no
content, or no parts) `editImageWithPrompt` fails with the content-policy
error; otherwise it returns the data URL built from the first part of the
first candidate carrying inline image data, and resolves to `none` — not an
error — when no part carries inline data. -/
theorem C3_editImageWithPrompt_response_spec
    (key b64 : String) (hk : key ≠ "") (hb : b64 ≠ "")
    (resp : GenerateResponse) (c0 : Candidate) (rest : List Candidate)
    (content : Content) (parts pre suf : List Part) (p : Part) (d : InlineData) :
    ((resp.candidates = none ∨ resp.candidates = some [] ∨
        (∃ c cs, resp.candidates = some (c :: cs) ∧ c.content = none) ∨
        (∃ c cs ct, resp.candidates = some (c :: cs) ∧ c.content = some ct ∧
          ct.parts = none)) →
      editImageWithPrompt (some key) (some b64) (.ok resp) = .error safetyMsg) ∧
    (resp.candidates = some (c0 :: rest) → c0.content = some content →
      content.parts = some parts →
      editImageWithPrompt (some key) (some b64) (.ok resp) = .ok (firstInlineUrl parts)) ∧
    ((∀ q ∈ parts, q.inlineData = none) → firstInlineUrl parts = none) ∧
    (parts = pre ++ p :: suf → (∀ q ∈ pre, q.inlineData = none) →
      p.inlineData = some d →
      firstInlineUrl parts = some ("data:" ++ d.mimeType ++ ";base64," ++ d.data)) := by
  have hmap : mapEditError safetyMsg = safetyMsg := by decide
  refine ⟨?_, ?_, ?_, ?_⟩
  · rintro (h | h | ⟨c, cs, h, hc⟩ | ⟨c, cs, ct, h, hc, hp⟩)
    · simp [editImageWithPrompt, truthyOptStr, hk, hb, editCore, h, hmap]
    · simp [editImageWithPrompt, truthyOptStr, hk, hb, editCore, h, hmap]
    · simp [editImageWithPrompt, truthyOptStr, hk, hb, editCore, h, hc, hmap]
    · simp [editImageWithPrompt, truthyOptStr, hk, hb, editCore, h, hc, hp, hmap]
  · intro h hc hp
    simp [editImageWithPrompt, truthyOptStr, hk, hb, editCore, h, hc, hp]
  · exact firstInlineUrl_of_all_none parts
  · intro hparts hpre hd
    rw [hparts]
    exact firstInlineUrl_of_first_image pre suf p d hpre hd

/-- Witness for C3 at concrete inputs: an empty candidate list is a
content-policy error; a response whose first candidate has a text part then
an image part yields the image part's data URL; a response with only
imageless parts resolves to `none`. -/
theorem C3_witness :
    editImageWithPrompt (some "k") (some "b") (.ok ⟨some []⟩) = .error safetyMsg ∧
    editImageWithPrompt (some "k") (some "b")
        (.ok ⟨some [⟨some ⟨some [⟨none⟩, ⟨some ⟨"image/png", "AAA"⟩⟩]⟩⟩]⟩) =
      .ok (some "data:image/png;base64,AAA") ∧
    editImageWithPrompt (some "k") (some "b") (.ok ⟨some [⟨some ⟨some [⟨none⟩]⟩⟩]⟩) =
      .ok none := by
  have hk : "k" ≠ "" := by decide
  have hb : "b" ≠ "" := by decide
  have h1 := C3_editImageWithPrompt_response_spec "k" "b" hk hb
    ⟨some []⟩ ⟨none⟩ [] ⟨none⟩ [] [] [] ⟨none⟩ ⟨"", ""⟩
  have h2 := C3_editImageWithPrompt_response_spec "k" "b" hk hb
    ⟨some [⟨some ⟨some [⟨none⟩, ⟨some ⟨"image/png", "AAA"⟩⟩]⟩⟩]⟩
    ⟨some ⟨some [⟨none⟩, ⟨some ⟨"image/png", "AAA"⟩⟩]⟩⟩ []
    ⟨some [⟨none⟩, ⟨some ⟨"image/png", "AAA"⟩⟩]⟩
    [⟨none⟩, ⟨some ⟨"image/png", "AAA"⟩⟩] [⟨none⟩] [] ⟨some ⟨"image/png", "AAA"⟩⟩
    ⟨"image/png", "AAA"⟩
  have h3 := C3_editImageWithPrompt_response_spec "k" "b" hk hb
    ⟨some [⟨some ⟨some [⟨none⟩]⟩⟩]⟩ ⟨some ⟨some [⟨none⟩]⟩⟩ [] ⟨some [⟨none⟩]⟩
    [⟨none⟩] [] [] ⟨none⟩ ⟨"", ""⟩
  refine ⟨h1.1 (Or.inr (Or.inl rfl)), ?_, ?_⟩
  · rw [h2.2.1 rfl rfl rfl, h2.2.2.2 rfl (by simp) rfl]
    rfl
  · rw [h3.2.1 rfl rfl rfl, h3.2.2.1 (by simp)]

theorem noImageLine_ne_empty (name : String) : noImageLine name ≠ "" :=
  append_ne_empty_left _ _ (append_ne_empty_left _ _ (by decide))

theorem procErrLine_ne_empty (name msg : String) : procErrLine name msg ≠ "" :=
  append_ne_empty_left _ _ (append_ne_empty_left _ _ (append_ne_empty_left _ _ (by decide)))

theorem mem_failLines_ne_empty (edit : UploadedFile → Except String (Option String))
    (files : List UploadedFile) : ∀ l ∈ failLines edit files, l ≠ "" := by
  intro l hl
  simp only [failLines, List.mem_filterMap] at hl
  obtain ⟨f, _, hfl⟩ := hl
  cases hef : edit f with
  | ok r =>
    rw [hef] at hfl
    by_cases hr : truthyOptStr r = true
    · simp [hr] at hfl
    · rw [Bool.not_eq_true] at hr
      simp only [hr, if_neg, Bool.false_eq_true, ite_false, Option.some.injEq] at hfl
      exact hfl ▸ noImageLine_ne_empty f.name
  | error m =>
    rw [hef] at hfl
    simp only [Option.some.injEq] at hfl
    exact hfl ▸ procErrLine_ne_empty f.name m

theorem appendErrLines_none_eq (ms : List String) (h : ∀ l ∈ ms, l ≠ "") :
    appendErrLines none ms = if ms = [] then none else some (joinLines ms) := by
  cases ms with
  | nil => rfl
  | cons m ms' =>
    simp only [appendErrLines, appendErrLine, List.cons_ne_nil, ite_false, if_neg]
    exact appendErrLines_some ms' m (h m (by simp))

/-- C4: for a batch of N files with all preconditions met, the loop calls
the edit client once per file, in upload order (hence at most N calls in
every case), and the aggregated error is the newline join of exactly one
failure line per failed file, in upload order (`none` when no file failed). -/
theorem C4_batch_calls_and_error_lines
    (edit : UploadedFile → Except String (Option String)) (now : Nat) (st : AppState)
    (hk : st.hasApiKey = true) (hf : st.uploadedFiles ≠ [])
    (hp : trimStr st.prompt ≠ "") :
    (∀ st2 : AppState, (handleGenerate edit now st2).2.length ≤ st2.uploadedFiles.length) ∧
    (handleGenerate edit now st).2 = st.uploadedFiles.map (·.name) ∧
    (handleGenerate edit now st).1.error =
      (if failLines edit st.uploadedFiles = [] then none
       else some (joinLines (failLines edit st.uploadedFiles))) := by
  have hflen : ¬ st.uploadedFiles.length = 0 := by
    simpa [List.length_eq_zero] using hf
  refine ⟨?_, ?_, ?_⟩
  · intro st2
    unfold handleGenerate
    split
    · simp
    · split
      · simp
      · split
        · simp
        · simp [batch_foldl_spec]
  · simp [handleGenerate, hk, hflen, hp, batch_foldl_spec]
  · simp only [handleGenerate, hk, Bool.not_true, Bool.false_eq_true, ite_false, hflen,
      hp, batch_foldl_spec]
    exact appendErrLines_none_eq _ (mem_failLines_ne_empty edit st.uploadedFiles)

/-- Witness for C4 at a concrete two-file batch with one failure: both
files are called in order and the error holds the single failure line. -/
theorem C4_witness :
    (handleGenerate editAB 0 stAB).2 = ["a.png", "b.png"] ∧
    (handleGenerate editAB 0 stAB).1.error = some "Lỗi khi xử lý ảnh b.png: boom" := by
  have h := C4_batch_calls_and_error_lines editAB 0 stAB rfl (by decide) (by decide)
  exact ⟨by rw [h.2.1]; rfl, by rw [h.2.2]; rfl⟩

/-- C7: each missing precondition — key absent, no uploaded files, blank
prompt, checked in that order — sets its own distinct error message and
returns with zero edit-client calls; only the missing-key case opens the
settings panel, and no other state field changes. -/
theorem C7_precondition_gate (edit : UploadedFile → Except String (Option String))
    (now : Nat) (st : AppState) :
    (st.hasApiKey = false →
      handleGenerate edit now st =
        ({ st with error := some needKeyMsg, isSettingsOpen := true }, [])) ∧
    (st.hasApiKey = true → st.uploadedFiles = [] →
      handleGenerate edit now st = ({ st with error := some needFilesMsg }, [])) ∧
    (st.hasApiKey = true → st.uploadedFiles ≠ [] → trimStr st.prompt = "" →
      handleGenerate edit now st = ({ st with error := some needPromptMsg }, [])) ∧
    needKeyMsg ≠ needFilesMsg ∧ needKeyMsg ≠ needPromptMsg ∧ needFilesMsg ≠ needPromptMsg := by
  refine ⟨?_, ?_, ?_, by decide, by decide, by decide⟩
  · intro h
    simp [handleGenerate, h]
  · intro h1 h2
    simp [handleGenerate, h1, h2]
  · intro h1 h2 h3
    have hflen : ¬ st.uploadedFiles.length = 0 := by
      simpa [List.length_eq_zero] using h2
    simp [handleGenerate, h1, hflen, h3]

/-- Witness for C7 at the three concrete precondition-violating states. -/
theorem C7_witness :
    handleGenerate (fun _ => .ok none) 0 stNoKey =
      ({ stNoKey with error := some needKeyMsg, isSettingsOpen := true }, []) ∧
    handleGenerate (fun _ => .ok none) 0 stNoFiles =
      ({ stNoFiles with error := some needFilesMsg }, []) ∧
    handleGenerate (fun _ => .ok none) 0 stNoPrompt =
      ({ stNoPrompt with error := some needPromptMsg }, []) := by
  have h1 := C7_precondition_gate (fun _ => .ok none) 0 stNoKey
  have h2 := C7_precondition_gate (fun _ => .ok none) 0 stNoFiles
  have h3 := C7_precondition_gate (fun _ => .ok none) 0 stNoPrompt
  exact ⟨h1.1 rfl, h2.2.1 rfl rfl, h3.2.2.1 rfl (by decide) (by decide)⟩

/-- C2, failing input: a one-file batch whose edit call hits a
RESOURCE_EXHAUSTED remote error. The service maps it to the quota/billing
guidance message, that message contains the substring `API Key`, so the
orchestrator's credential test matches it and flips the has-key flag to
false and reopens settings — although the claim (and the service's own
stated intent that a quota error means the key is valid) requires the
credential state to stay intact on quota failures. -/
theorem C2_quota_failure_flips_key_flag :
    editQuota ⟨"photo.png", "image/png"⟩ = .error quotaMsg ∧
    isCredMsg quotaMsg = true ∧
    (handleGenerate editQuota 0 stQuota).1.hasApiKey = false ∧
    (handleGenerate editQuota 0 stQuota).1.isSettingsOpen = true ∧
    (handleGenerate editQuota 0 stQuota).1.error =
      some (procErrLine "photo.png" quotaMsg) := by
  refine ⟨by rfl, by decide, by rfl, by rfl, by rfl⟩

/-- C5 counterexample: in a batch where both files succeed, the first
file's record ends up first in the gallery — the accumulator appends
(`push`), so within-batch display order is chronological, not
reverse-chronological as the claim states. -/
theorem C5_counterexample :
    (handleGenerate editOk 0 stTwo).1.generatedImages =
      [mkImage fileA "url-a.png" "p" 0, mkImage fileB "url-b.png" "p" 0] ∧
    [mkImage fileA "url-a.png" "p" 0, mkImage fileB "url-b.png" "p" 0] ≠
      [mkImage fileB "url-b.png" "p" 0, mkImage fileA "url-a.png" "p" 0] := by
  exact ⟨by rfl, by decide⟩

/-- C5 amended: each successful record is appended to the in-batch
accumulator, and after the batch the accumulator is prepended as a block to
the gallery — so batches appear newest-first while records within a batch
stay in upload/generation order. -/
theorem C5_records_appended_block_prepended
    (edit : UploadedFile → Except String (Option String)) (now : Nat) (st : AppState)
    (hk : st.hasApiKey = true) (hf : st.uploadedFiles ≠ []) (hp : trimStr st.prompt ≠ "") :
    (handleGenerate edit now st).1.generatedImages =
      succRecords edit st.prompt now st.uploadedFiles ++ st.generatedImages ∧
    (∀ files1 files2 : List UploadedFile,
      succRecords edit st.prompt now (files1 ++ files2) =
        succRecords edit st.prompt now files1 ++ succRecords edit st.prompt now files2) := by
  constructor
  · have hflen : ¬ st.uploadedFiles.length = 0 := by
      simpa [List.length_eq_zero] using hf
    simp [handleGenerate, hk, hflen, hp, batch_foldl_spec]
  · intro a b
    simp [succRecords, List.filterMap_append]

/-- Witness for the amended C5 at the concrete two-file all-success batch. -/
theorem C5_witness :
    (handleGenerate editOk 0 stTwo).1.generatedImages =
      succRecords editOk stTwo.prompt 0 stTwo.uploadedFiles ++ stTwo.generatedImages :=
  (C5_records_appended_block_prepended editOk 0 stTwo rfl (by decide) (by decide)).1

/-- C9: `removeFile` removes every uploaded entry whose name equals the
given name (duplicate-named uploads all go in one call) and keeps the
remaining entries in their relative order. -/
theorem C9_removeFile_spec (files : List UploadedFile) (nm : String) :
    List.Sublist (removeFile nm files) files ∧
    (∀ f, f ∈ removeFile nm files ↔ f ∈ files ∧ f.name ≠ nm) := by
  refine ⟨List.filter_sublist files, ?_⟩
  intro f
  simp [removeFile, List.mem_filter, bne_iff_ne]

/-- C6: deleting the selected record by id removes exactly the records
bearing that id, keeps every other record in its relative order (the result
is a sublist of the old gallery), and the persistence effect that follows
stores the serialization of the new collection. -/
theorem C6_delete_removes_exactly_id (st : AppState) (img : GeneratedImage)
    (hsel : st.selectedImage = some img) (hid : img.id ≠ "")
    (hstore : (∃ g, st.storage = some (stringifyGallery g)) ∨
      st.generatedImages.filter (fun r => r.id != img.id) ≠ []) :
    (handleDeleteImage st).generatedImages =
      st.generatedImages.filter (fun r => r.id != img.id) ∧
    List.Sublist (handleDeleteImage st).generatedImages st.generatedImages ∧
    (∀ r, r ∈ (handleDeleteImage st).generatedImages ↔
      r ∈ st.generatedImages ∧ r.id ≠ img.id) ∧
    (persistEffect (handleDeleteImage st)).storage =
      some (stringifyGallery ((handleDeleteImage st).generatedImages)) := by
  have hdel : handleDeleteImage st =
      { st with generatedImages := st.generatedImages.filter (fun r => r.id != img.id)
                selectedImage := none } := by
    simp [handleDeleteImage, hsel, hid]
  refine ⟨by rw [hdel], by rw [hdel]; exact List.filter_sublist _, ?_, ?_⟩
  · intro r
    rw [hdel]
    simp [List.mem_filter, bne_iff_ne]
  · rw [hdel]
    rcases hstore with ⟨g, hg⟩ | hne
    · have ht : truthyOptStr st.storage = true := by
        rw [hg]
        simpa [truthyOptStr, bne_iff_ne] using stringifyGallery_ne_empty g
      simp [persistEffect, ht]
    · have hlen : 0 < (st.generatedImages.filter (fun r => r.id != img.id)).length :=
        List.length_pos.mpr hne
      simp [persistEffect, hlen]

/-- Witness for C6 at a concrete two-record gallery: deleting the selected
record keeps exactly the other one and persists the one-record collection. -/
theorem C6_witness :
    (handleDeleteImage stDel).generatedImages = [imgY] ∧
    (persistEffect (handleDeleteImage stDel)).storage = some (stringifyGallery [imgY]) := by
  have h := C6_delete_removes_exactly_id stDel imgX rfl (by decide)
    (Or.inl ⟨[imgX, imgY], rfl⟩)
  constructor
  · rw [h.1]; rfl
  · rw [h.2.2.2, h.1]; rfl

/-- C8: when the stored `generatedImages` entry is present but fails to
parse, hydration leaves the gallery empty, removes the corrupted entry,
runs the logging catch branch, and returns normally instead of failing. -/
theorem C8_corrupt_gallery_hydration
    (parse : String → Option (List GeneratedImage)) (st : AppState) (s : String)
    (hstore : st.storage = some s) (hs : s ≠ "") (hparse : parse s = none)
    (hinit : st.generatedImages = []) :
    hydrateGallery parse st = ({ st with storage := none }, true) ∧
    (hydrateGallery parse st).1.generatedImages = [] := by
  have h : hydrateGallery parse st = ({ st with storage := none }, true) := by
    simp [hydrateGallery, hstore, hs, hparse]
  exact ⟨h, by rw [h]; exact hinit⟩

/-- Witness for C8 with a parse function that rejects everything. -/
theorem C8_witness :
    hydrateGallery (fun _ => none) stCorrupt = ({ stCorrupt with storage := none }, true) :=
  (C8_corrupt_gallery_hydration (fun _ => none) stCorrupt "garbage" rfl (by decide) rfl rfl).1

/-- C10: the persistence effect writes the serialized gallery whenever the
gallery is non-empty or the entry exists, does nothing when the gallery is
empty and no entry exists, and in particular rewrites an existing entry to
the empty collection `[]` once the last record is gone. The hypothesis is
the reachable-state invariant that an existing entry is a serialized
gallery (hence never the empty string). -/
theorem C10_persist_condition (st : AppState)
    (hreach : st.storage = none ∨ ∃ g, st.storage = some (stringifyGallery g)) :
    ((st.generatedImages ≠ [] ∨ st.storage ≠ none) →
      (persistEffect st).storage = some (stringifyGallery st.generatedImages)) ∧
    (st.generatedImages = [] → st.storage = none → persistEffect st = st) ∧
    (st.generatedImages = [] → st.storage ≠ none →
      (persistEffect st).storage = some "[]") := by
  have htruthy : st.storage ≠ none → truthyOptStr st.storage = true := by
    intro hne
    rcases hreach with h0 | ⟨g, hg⟩
    · exact absurd h0 hne
    · rw [hg]
      simpa [truthyOptStr, bne_iff_ne] using stringifyGallery_ne_empty g
  refine ⟨?_, ?_, ?_⟩
  · rintro (h | h)
    · have hlen : 0 < st.generatedImages.length := List.length_pos.mpr h
      simp [persistEffect, hlen]
    · simp [persistEffect, htruthy h]
  · intro h1 h2
    simp [persistEffect, h1, h2, truthyOptStr]
  · intro h1 h2
    simp [persistEffect, htruthy h2, h1]
    rfl

/-- Witness for C10: with an empty gallery and an existing entry, the
effect rewrites the entry to the empty collection. -/
theorem C10_witness :
    (persistEffect stLastGone).storage = some "[]" :=
  (C10_persist_condition stLastGone (Or.inr ⟨[imgX], rfl⟩)).2.2 rfl (by decide)

end ImageGenerator

